import Mathlib

/-!
Verification of the bathtub measurement application.

The development shallowly embeds the two Python modules of the repository:

* `bathe.py` — the Textual form application. Its core pieces are
  `AddBathtubScreen.calculate_incline` (pure trigonometry), the SQLite
  `Database` wrapper (`init_db`, `add_bathtub`), and the save-button
  handler `save_bathtub`.
* `bathtub_manager.py` — the CLI editor built around
  `BathtubDatabaseManager` with its `FIELDS` table, `search_entries`,
  `get_entry_by_id` and `update_field`.

The SQLite table is modelled as a list of rows together with the next
`AUTOINCREMENT` identifier.  Machine floats are modelled as real numbers;
Python's `float(...)` string conversion is modelled by an executable
decimal parser into `ℚ`.  SQLite's `LIKE` operator (ASCII
case-insensitive, `%`/`_` wildcards) is modelled by an executable matcher
on character lists.
-/

open Real

/-- `AddBathtubScreen.calculate_incline` from `bathe.py`:
if `height == 0` return `0`; otherwise the horizontal offset of one
slanted side is `abs(top_length - bottom_length) / 2` and the result is
`math.degrees(math.atan(offset / height))`, i.e. multiplication by
`180 / π`. -/
noncomputable def calculate_incline (top_length bottom_length height : ℝ) : ℝ :=
  if height = 0 then 0
  else
    let horizontal_diff := |top_length - bottom_length| / 2
    Real.arctan (horizontal_diff / height) * (180 / Real.pi)

/-- A row of the `bathtubs` table created by `Database.init_db` in
`bathe.py`: `id INTEGER PRIMARY KEY AUTOINCREMENT`, `name TEXT NOT NULL`,
the four `REAL NOT NULL` measurements, the derived
`side_incline_degrees REAL NOT NULL`, `liters TEXT DEFAULT 'N/A'` and
`created_at TIMESTAMP DEFAULT CURRENT_TIMESTAMP` (timestamps kept as
text). -/
structure Bathtub where
  id : Nat
  name : String
  top_length : ℝ
  bottom_length : ℝ
  width : ℝ
  height : ℝ
  side_incline_degrees : ℝ
  liters : String
  created_at : String

/-- The SQLite database file: the rows of the `bathtubs` table in
insertion (rowid) order, together with the next `AUTOINCREMENT`
identifier. -/
structure DBState where
  rows : List Bathtub
  nextId : Nat

/-- A database whose `bathtubs` table is empty; SQLite
`AUTOINCREMENT` identifiers start at 1. -/
def emptyDB : DBState := ⟨[], 1⟩

/-- The columns of the `bathtubs` table, in the order of the
`CREATE TABLE` statement in `Database.init_db`. -/
def tableColumns : List String :=
  [("id"), ("name"), ("top_length"), ("bottom_length"), ("width"),
   ("height"), ("side_incline_degrees"), ("liters"), ("created_at")]

/-- The declared Python type of a field in
`BathtubDatabaseManager.FIELDS` (`float` or `str`). -/
inductive FieldType
  | tFloat
  | tStr
deriving DecidableEq

/-- One entry of `BathtubDatabaseManager.FIELDS`: declared type,
description, `required` flag, and the `readonly` flag (which
`FIELDS[field].get('readonly', False)` defaults to `False` when the key
is absent). -/
structure FieldInfo where
  ftype : FieldType
  descr : String
  required : Bool
  readonly : Bool
deriving DecidableEq

/-- `BathtubDatabaseManager.FIELDS` from `bathtub_manager.py`, in source
order.  Note that the table's `id` column is deliberately absent. -/
def FIELDS : List (String × FieldInfo) :=
  [(("name"), ⟨FieldType.tStr, ("Bathtub name"), true, false⟩),
   (("top_length"), ⟨FieldType.tFloat, ("Top length (cm)"), true, false⟩),
   (("bottom_length"), ⟨FieldType.tFloat, ("Bottom length (cm)"), true, false⟩),
   (("width"), ⟨FieldType.tFloat, ("Width (cm)"), true, false⟩),
   (("height"), ⟨FieldType.tFloat, ("Height (cm)"), true, false⟩),
   (("side_incline_degrees"), ⟨FieldType.tFloat, ("Side incline (degrees)"), true, false⟩),
   (("liters"), ⟨FieldType.tStr, ("Capacity in liters"), false, false⟩),
   (("created_at"), ⟨FieldType.tStr, ("Creation timestamp"), false, true⟩)]

/-- Dictionary lookup `FIELDS[field]` (`None` when `field not in FIELDS`). -/
def fieldInfo (field : String) : Option FieldInfo :=
  (FIELDS.find? (fun p => p.1 == field)).map Prod.snd

/-- ASCII whitespace, as stripped by Python's `str.strip()` and
`float(...)` (the common cases: space, tab, newline, carriage return). -/
def isSpaceChar (c : Char) : Bool :=
  c == ' ' || c == '\t' || c == '\n' || c == '\r'

/-- Strip leading and trailing whitespace from a character list. -/
def trimChars (s : List Char) : List Char :=
  ((s.dropWhile isSpaceChar).reverse.dropWhile isSpaceChar).reverse

/-- Python's `str.strip()` (on ASCII whitespace). -/
def pyStrip (s : String) : String := ⟨trimChars s.data⟩

/-- Numeric value of a list of decimal digit characters. -/
def digitsVal (ds : List Char) : Nat :=
  ds.foldl (fun a c => a * 10 + (c.toNat - 48)) 0

/-- Helper for `parseReal`: parse an unsigned decimal literal —
digits with an optional fractional part, at least one digit overall. -/
def parseUnsigned (s : List Char) : Option ℚ :=
  let intPart := s.takeWhile Char.isDigit
  let rest := s.dropWhile Char.isDigit
  match rest with
  | [] => if intPart.isEmpty then none else some ((digitsVal intPart : ℚ))
  | '.' :: frac =>
    if frac.all Char.isDigit && (!intPart.isEmpty || !frac.isEmpty) then
      some ((digitsVal intPart : ℚ) + (digitsVal frac : ℚ) / (10 : ℚ) ^ frac.length)
    else none
  | _ => none

/-- Model of Python's `float(...)` string conversion on plain decimal
literals: surrounding whitespace is stripped, an optional sign precedes
digits with an optional fractional part.  (Exponent notation and the
special `inf`/`nan` forms are not modelled; every claim about
`update_field` and `save_bathtub` is conditional on the outcome of this
conversion.)  Returns `none` exactly when `float(...)` would raise
`ValueError` on the modelled fragment. -/
def parseReal (s : String) : Option ℚ :=
  match trimChars s.data with
  | '-' :: rest => (parseUnsigned rest).map (fun q => -q)
  | '+' :: rest => parseUnsigned rest
  | l => parseUnsigned l

/-- Effect of `UPDATE bathtubs SET {field} = ? WHERE id = ?` on a single
row when the bound value is a real number (the converted value of a
`float`-typed field). -/
noncomputable def setFloatField (r : Bathtub) (field : String) (x : ℝ) : Bathtub :=
  if field == ("top_length") then {r with top_length := x}
  else if field == ("bottom_length") then {r with bottom_length := x}
  else if field == ("width") then {r with width := x}
  else if field == ("height") then {r with height := x}
  else if field == ("side_incline_degrees") then {r with side_incline_degrees := x}
  else r

/-- Effect of `UPDATE bathtubs SET {field} = ? WHERE id = ?` on a single
row when the bound value is text (the converted value of a `str`-typed
field). -/
def setTextField (r : Bathtub) (field : String) (v : String) : Bathtub :=
  if field == ("name") then {r with name := v}
  else if field == ("liters") then {r with liters := v}
  else if field == ("created_at") then {r with created_at := v}
  else r

/-- The exceptions `BathtubDatabaseManager.update_field` raises before
touching the database: `ValueError("Unknown field: ...")`,
`ValueError("Field '...' is read-only")` and
`ValueError("Invalid value for field '...': ...")`. -/
inductive UpdateError
  | unknownField
  | readOnlyField
  | invalidValue
deriving DecidableEq

/-- `BathtubDatabaseManager.update_field` from `bathtub_manager.py`:
reject unknown fields, then readonly fields, then convert `new_value` to
the field's declared type (`float(new_value)` or `str(new_value)`), and
finally run `UPDATE bathtubs SET {field} = ? WHERE id = ?`, returning
`cursor.rowcount > 0`.  The returned state is the database after the
call; every error path leaves it untouched because the exception is
raised before the connection is opened. -/
noncomputable def update_field (s : DBState) (entry_id : Nat)
    (field new_value : String) : Except UpdateError Bool × DBState :=
  match fieldInfo field with
  | none => (Except.error UpdateError.unknownField, s)
  | some info =>
    if info.readonly then (Except.error UpdateError.readOnlyField, s)
    else
      match info.ftype with
      | FieldType.tFloat =>
        match parseReal new_value with
        | none => (Except.error UpdateError.invalidValue, s)
        | some q =>
          (Except.ok (s.rows.any (fun r => r.id == entry_id)),
           ⟨s.rows.map (fun r =>
              if r.id == entry_id then setFloatField r field ((q : ℝ)) else r),
            s.nextId⟩)
      | FieldType.tStr =>
        (Except.ok (s.rows.any (fun r => r.id == entry_id)),
         ⟨s.rows.map (fun r =>
            if r.id == entry_id then setTextField r field new_value else r),
          s.nextId⟩)

/-- `Database.add_bathtub` from `bathe.py`: `INSERT INTO bathtubs` with
the seven supplied values; SQLite assigns the next `AUTOINCREMENT`
identifier (returned as `cursor.lastrowid`) and the current timestamp
(modelled by the `now` argument, since `created_at` defaults to
`CURRENT_TIMESTAMP`). -/
def add_bathtub (s : DBState) (name : String)
    (top_length bottom_length width height side_incline : ℝ)
    (liters now : String) : Nat × DBState :=
  (s.nextId,
   ⟨s.rows ++ [⟨s.nextId, name, top_length, bottom_length, width, height,
               side_incline, liters, now⟩],
    s.nextId + 1⟩)

/-- The `search_by_id` branch of `BathtubDatabaseManager.search_entries`:
`SELECT ... FROM bathtubs WHERE id = ?`. -/
def search_entries_by_id (s : DBState) (entry_id : Nat) : List Bathtub :=
  s.rows.filter (fun r => r.id == entry_id)

/-- `BathtubDatabaseManager.get_entry_by_id`: the first row returned by
the id search, or `None` when there is no match. -/
def get_entry_by_id (s : DBState) (entry_id : Nat) : Option Bathtub :=
  (search_entries_by_id s entry_id).head?

/-- SQLite's `LIKE` operator on character lists: `%` matches any
sequence, `_` matches any single character, and ordinary characters
match up to ASCII case (SQLite folds `A`–`Z`, which is exactly what
`Char.toLower` folds). -/
def likeMatch : List Char → List Char → Bool
  | [], s => s.isEmpty
  | p :: ps, s =>
    if p == '%' then
      likeMatch ps s ||
        (match s with
         | [] => false
         | _ :: s2 => likeMatch (p :: ps) s2)
    else
      match s with
      | [] => false
      | c :: s2 =>
        if p == '_' then likeMatch ps s2
        else (p.toLower == c.toLower) && likeMatch ps s2
termination_by p s => (p.length, s.length)

/-- The pattern `f"%{search_term}%"` bound to `name LIKE ?` in
`search_entries`. -/
def likePattern (search_term : String) : List Char :=
  '%' :: (search_term.data ++ ['%'])

/-- The name-search branch of `BathtubDatabaseManager.search_entries`:
`SELECT ... FROM bathtubs WHERE name LIKE ? ORDER BY name` with the
pattern `f"%{search_term}%"`. -/
def search_entries_by_name (s : DBState) (search_term : String) : List Bathtub :=
  (s.rows.filter (fun r => likeMatch (likePattern search_term) r.name.data)).mergeSort
    (fun a b => decide (a.name ≤ b.name))

/-- The no-argument branch of `BathtubDatabaseManager.search_entries`:
`SELECT ... FROM bathtubs ORDER BY name`. -/
def search_entries_all (s : DBState) : List Bathtub :=
  s.rows.mergeSort (fun a b => decide (a.name ≤ b.name))

/-- Outcome of the save-button handler `AddBathtubScreen.save_bathtub`:
either one of its two validation error banners, or a successful save
with the identifier returned by `Database.add_bathtub`. -/
inductive SaveResult
  | errName
  | errNumeric
  | saved (id : Nat)

/-- `AddBathtubScreen.save_bathtub` from `bathe.py`, as a function of the
six input field values and the database: reject an empty name
(`if not name_input.value`), then convert the four measurements with
`float(...)` (any failure is reported as one error), default blank
`liters` to `"N/A"` (after `strip()`), compute the incline with
`calculate_incline` and insert via `Database.add_bathtub`.  Error paths
return the database unchanged since no insert is attempted. -/
noncomputable def save_bathtub (s : DBState)
    (name top_length bottom_length width height liters : String)
    (now : String) : SaveResult × DBState :=
  if name = ("") then (SaveResult.errName, s)
  else
    match parseReal top_length, parseReal bottom_length,
          parseReal width, parseReal height with
    | some t, some b, some w, some h =>
      let litersV := if pyStrip liters = ("") then ("N/A") else pyStrip liters
      let incline := calculate_incline ((t : ℝ)) ((b : ℝ)) ((h : ℝ))
      let res := add_bathtub s name ((t : ℝ)) ((b : ℝ)) ((w : ℝ)) ((h : ℝ))
        incline litersV now
      (SaveResult.saved res.1, res.2)
    | _, _, _, _ => (SaveResult.errNumeric, s)

/-- The five `float`-typed keys of `FIELDS` (the numeric columns of the
table). -/
def numericFieldNames : List String :=
  [("top_length"), ("bottom_length"), ("width"), ("height"),
   ("side_incline_degrees")]

/-- A concrete database with a single stored record (identifier 1). -/
noncomputable def oneRowDB : DBState :=
  ⟨[⟨1, ("Classic"), 150, 120, 70, 45, 18, ("180"), ("2024-01-01 00:00:00")⟩], 2⟩

/-- A concrete database holding one record named `Polypex`. -/
noncomputable def polypDB : DBState :=
  ⟨[⟨1, ("Polypex"), 150, 120, 70, 45, 18, ("180"), ("2024-01-01 00:00:00")⟩], 2⟩

/-- C1: For every non-negative `top_length`, `bottom_length` and `height`,
`calculate_incline` returns an angle in degrees lying in `[0, 90)`. -/
theorem calculate_incline_mem_Ico (top_length bottom_length height : ℝ)
    (ht : 0 ≤ top_length) (hb : 0 ≤ bottom_length) (hh : 0 ≤ height) :
    calculate_incline top_length bottom_length height ∈ Set.Ico (0 : ℝ) 90 := by
  unfold calculate_incline
  by_cases h0 : height = 0
  · simp [h0]
  · have hpos : 0 < height := lt_of_le_of_ne hh (Ne.symm h0)
    have hx : 0 ≤ |top_length - bottom_length| / 2 / height :=
      div_nonneg (div_nonneg (abs_nonneg _) (by norm_num)) hh
    have hpi : 0 < Real.pi := Real.pi_pos
    have hcoef : 0 < 180 / Real.pi := by positivity
    have h1 : 0 ≤ Real.arctan (|top_length - bottom_length| / 2 / height) := by
      have := Real.arctan_strictMono.monotone hx
      simpa [Real.arctan_zero] using this
    have h2 : Real.arctan (|top_length - bottom_length| / 2 / height) < Real.pi / 2 :=
      Real.arctan_lt_pi_div_two _
    constructor
    · simp only [h0, if_false]
      exact mul_nonneg h1 hcoef.le
    · simp only [h0, if_false]
      have h3 : Real.arctan (|top_length - bottom_length| / 2 / height) * (180 / Real.pi)
          < (Real.pi / 2) * (180 / Real.pi) := by
        exact mul_lt_mul_of_pos_right h2 hcoef
      have h4 : (Real.pi / 2) * (180 / Real.pi) = 90 := by
        field_simp
        ring
      calc Real.arctan (|top_length - bottom_length| / 2 / height) * (180 / Real.pi)
          < (Real.pi / 2) * (180 / Real.pi) := h3
        _ = 90 := h4

/-- Witness for C1 at concrete non-negative inputs. -/
theorem calculate_incline_mem_Ico_witness :
    calculate_incline 150 120 45 ∈ Set.Ico (0 : ℝ) 90 :=
  calculate_incline_mem_Ico 150 120 45 (by norm_num) (by norm_num) (by norm_num)

/-- C2: For non-negative inputs, `calculate_incline` is `0` exactly when
the height is `0` or the two lengths coincide. -/
theorem calculate_incline_eq_zero_iff (top_length bottom_length height : ℝ)
    (ht : 0 ≤ top_length) (hb : 0 ≤ bottom_length) (hh : 0 ≤ height) :
    calculate_incline top_length bottom_length height = 0 ↔
      (height = 0 ∨ top_length = bottom_length) := by
  unfold calculate_incline
  by_cases h0 : height = 0
  · simp [h0]
  · have hpi : Real.pi ≠ 0 := Real.pi_ne_zero
    have hcoef : (180 : ℝ) / Real.pi ≠ 0 := by positivity
    simp only [h0, if_false, false_or]
    rw [mul_eq_zero]
    constructor
    · rintro (harc | hc)
      · have hx := Real.arctan_eq_zero_iff.mp harc
        rcases div_eq_zero_iff.mp hx with hnum | hden
        · rcases div_eq_zero_iff.mp hnum with habs | h2
          · exact sub_eq_zero.mp (abs_eq_zero.mp habs)
          · norm_num at h2
        · exact absurd hden h0
      · exact absurd hc hcoef
    · intro heq
      left
      rw [Real.arctan_eq_zero_iff]
      rw [heq]
      simp

/-- Witness for C2 at concrete non-negative inputs. -/
theorem calculate_incline_eq_zero_iff_witness :
    calculate_incline 5 5 3 = 0 :=
  (calculate_incline_eq_zero_iff 5 5 3 (by norm_num) (by norm_num) (by norm_num)).mpr
    (Or.inr rfl)

/-- C4: For every identifier and every new value, `update_field` on the
creation-timestamp field `created_at` fails with the read-only-field
error, and the database — hence the addressed row, if it exists — is
returned unchanged. -/
theorem update_field_created_at_readOnly (s : DBState) (entry_id : Nat) (v : String) :
    update_field s entry_id ("created_at") v
      = (Except.error UpdateError.readOnlyField, s) := rfl

/-- Unfolding lemma: on a known non-readonly `float` field,
`update_field` converts with `float(...)` and either raises the
invalid-value error or performs the SQL update. -/
theorem update_field_float (s : DBState) (entry_id : Nat) (field v : String)
    (info : FieldInfo) (hfi : fieldInfo field = some info)
    (hro : info.readonly = false) (hft : info.ftype = FieldType.tFloat) :
    update_field s entry_id field v =
      (match parseReal v with
       | none => (Except.error UpdateError.invalidValue, s)
       | some q =>
         (Except.ok (s.rows.any (fun r => r.id == entry_id)),
          ⟨s.rows.map (fun r =>
             if r.id == entry_id then setFloatField r field ((q : ℝ)) else r),
           s.nextId⟩)) := by
  cases info with
  | mk ft ds rq ro =>
    have hro2 : ro = false := hro
    have hft2 : ft = FieldType.tFloat := hft
    subst hro2
    subst hft2
    simp only [update_field]
    rw [hfi]
    rfl

/-- Unfolding lemma: on a known non-readonly `str` field, `update_field`
always reaches the SQL update. -/
theorem update_field_text (s : DBState) (entry_id : Nat) (field v : String)
    (info : FieldInfo) (hfi : fieldInfo field = some info)
    (hro : info.readonly = false) (hft : info.ftype = FieldType.tStr) :
    update_field s entry_id field v =
      (Except.ok (s.rows.any (fun r => r.id == entry_id)),
       ⟨s.rows.map (fun r =>
          if r.id == entry_id then setTextField r field v else r),
        s.nextId⟩) := by
  cases info with
  | mk ft ds rq ro =>
    have hro2 : ro = false := hro
    have hft2 : ft = FieldType.tStr := hft
    subst hro2
    subst hft2
    simp only [update_field]
    rw [hfi]
    rfl

/-- C5: Updating any of the five numeric fields with a value that does
not convert to a real number fails with the invalid-value error and
leaves the database unchanged, while the text fields `name` and `liters`
accept every value without an invalid-value error (the update then
reports whether a row with the identifier exists). -/
theorem update_field_type_validation (s : DBState) (entry_id : Nat) (field v : String)
    (hf : field ∈ numericFieldNames) (hv : parseReal v = none) :
    update_field s entry_id field v = (Except.error UpdateError.invalidValue, s)
    ∧ (∀ w : String, (update_field s entry_id ("name") w).1
        = Except.ok (s.rows.any (fun r => r.id == entry_id)))
    ∧ (∀ w : String, (update_field s entry_id ("liters") w).1
        = Except.ok (s.rows.any (fun r => r.id == entry_id))) := by
  refine ⟨?_, fun w => rfl, fun w => rfl⟩
  simp only [numericFieldNames, List.mem_cons, List.not_mem_nil, or_false] at hf
  rcases hf with rfl | rfl | rfl | rfl | rfl
  · rw [update_field_float s entry_id ("top_length") v
      ⟨FieldType.tFloat, ("Top length (cm)"), true, false⟩ rfl rfl rfl, hv]
  · rw [update_field_float s entry_id ("bottom_length") v
      ⟨FieldType.tFloat, ("Bottom length (cm)"), true, false⟩ rfl rfl rfl, hv]
  · rw [update_field_float s entry_id ("width") v
      ⟨FieldType.tFloat, ("Width (cm)"), true, false⟩ rfl rfl rfl, hv]
  · rw [update_field_float s entry_id ("height") v
      ⟨FieldType.tFloat, ("Height (cm)"), true, false⟩ rfl rfl rfl, hv]
  · rw [update_field_float s entry_id ("side_incline_degrees") v
      ⟨FieldType.tFloat, ("Side incline (degrees)"), true, false⟩ rfl rfl rfl, hv]

/-- Witness for C5 at a concrete numeric field and non-numeric value. -/
theorem update_field_type_validation_witness :
    update_field emptyDB 1 ("width") ("abc")
      = (Except.error UpdateError.invalidValue, emptyDB) :=
  (update_field_type_validation emptyDB 1 ("width") ("abc")
    (by decide) (by decide)).1

/-- C7: For an existing record and a value that converts to a real
number, updating `side_incline_degrees` through the generic path raises
no error, returns `true`, and overwrites the stored incline with the
given value — for every such value, including any value different from
the incline computed from the record's stored lengths and height. -/
theorem update_field_overwrites_incline (s : DBState) (entry_id : Nat)
    (v : String) (q : ℚ)
    (hv : parseReal v = some q)
    (hex : s.rows.any (fun r => r.id == entry_id) = true) :
    update_field s entry_id ("side_incline_degrees") v
      = (Except.ok true,
         ⟨s.rows.map (fun r =>
            if r.id == entry_id
            then {r with side_incline_degrees := ((q : ℝ))} else r),
          s.nextId⟩) := by
  rw [update_field_float s entry_id ("side_incline_degrees") v
    ⟨FieldType.tFloat, ("Side incline (degrees)"), true, false⟩ rfl rfl rfl, hv, hex]
  rfl

/-- Witness for C7: overwriting the stored incline of the one-row
database with the arbitrary value 45 succeeds. -/
theorem update_field_overwrites_incline_witness :
    (update_field oneRowDB 1 ("side_incline_degrees") ("45")).1
      = Except.ok true := by
  have h := update_field_overwrites_incline oneRowDB 1 ("45") 45
    (by decide) (by rfl)
  rw [h]

/-- `fieldInfo` fails exactly on strings that are not `FIELDS` keys. -/
theorem fieldInfo_eq_none_iff (field : String) :
    fieldInfo field = none ↔ field ∉ FIELDS.map Prod.fst := by
  unfold fieldInfo
  rw [Option.map_eq_none', List.find?_eq_none]
  constructor
  · intro h hmem
    obtain ⟨p, hp, hpeq⟩ := List.mem_map.mp hmem
    exact h p hp (by simp [hpeq])
  · intro h p hp hbeq
    exact h (List.mem_map.mpr ⟨p, hp, beq_iff_eq.mp hbeq⟩)

/-- When the field is recognized, `update_field` never reports the
unknown-field error, whatever else happens. -/
theorem update_field_not_unknown (s : DBState) (entry_id : Nat) (field v : String)
    (info : FieldInfo) (hfi : fieldInfo field = some info) :
    (update_field s entry_id field v).1 ≠ Except.error UpdateError.unknownField := by
  by_cases hro : info.readonly = true
  · simp [update_field, hfi, hro]
  · cases hft : info.ftype
    · cases hpv : parseReal v
      · simp [update_field, hfi, hro, hft, hpv]
      · simp [update_field, hfi, hro, hft, hpv]
    · simp [update_field, hfi, hro, hft]

/-- C8 (amended): `update_field` fails with the unknown-field error
exactly when the field name is not a key of `FIELDS` — the editable
surface, which omits the table's `id` column. -/
theorem update_field_unknownField_iff (s : DBState) (entry_id : Nat) (field v : String) :
    (update_field s entry_id field v).1 = Except.error UpdateError.unknownField
      ↔ field ∉ FIELDS.map Prod.fst := by
  rw [← fieldInfo_eq_none_iff]
  cases hfi : fieldInfo field with
  | none =>
    have hu : update_field s entry_id field v
        = (Except.error UpdateError.unknownField, s) := by
      simp [update_field, hfi]
    rw [hu]
    simp
  | some info =>
    constructor
    · intro h
      exact absurd h (update_field_not_unknown s entry_id field v info hfi)
    · intro h
      exact absurd h (Option.some_ne_none info)

/-- Counterexample to C8 as stated: `id` is a column of the `bathtubs`
table, yet `update_field` rejects it with the unknown-field error. -/
theorem update_field_id_column_counterexample :
    ("id") ∈ tableColumns
    ∧ update_field emptyDB 1 ("id") ("7")
        = (Except.error UpdateError.unknownField, emptyDB) :=
  ⟨by decide, rfl⟩

/-- C9: With a recognized editable field and a type-valid value,
`update_field` raises nothing and returns `false` when no row has the
identifier and `true` when one does. -/
theorem update_field_rowcount (s : DBState) (entry_id : Nat) (field v : String)
    (info : FieldInfo) (hfi : fieldInfo field = some info)
    (hro : info.readonly = false)
    (hty : info.ftype = FieldType.tFloat → (parseReal v).isSome = true) :
    ((¬ ∃ r ∈ s.rows, r.id = entry_id) →
        (update_field s entry_id field v).1 = Except.ok false)
    ∧ ((∃ r ∈ s.rows, r.id = entry_id) →
        (update_field s entry_id field v).1 = Except.ok true) := by
  have hok : (update_field s entry_id field v).1
      = Except.ok (s.rows.any (fun r => r.id == entry_id)) := by
    cases hft : info.ftype
    · obtain ⟨q, hq⟩ := Option.isSome_iff_exists.mp (hty hft)
      rw [update_field_float s entry_id field v info hfi hro hft, hq]
    · rw [update_field_text s entry_id field v info hfi hro hft]
  constructor
  · intro hne
    have hfalse : (s.rows.any (fun r => r.id == entry_id)) = false := by
      by_contra hcon
      rw [Bool.not_eq_false, List.any_eq_true] at hcon
      obtain ⟨r, hr, hid⟩ := hcon
      exact hne ⟨r, hr, by simpa using hid⟩
    rw [hok, hfalse]
  · rintro ⟨r, hr, hid⟩
    have htrue : (s.rows.any (fun r => r.id == entry_id)) = true :=
      List.any_eq_true.mpr ⟨r, hr, by simpa using hid⟩
    rw [hok, htrue]

/-- Witness for C9: on the one-row database, updating `liters` of the
nonexistent identifier 999 returns `false`, of the existing identifier 1
returns `true`. -/
theorem update_field_rowcount_witness :
    (update_field oneRowDB 999 ("liters") ("200")).1 = Except.ok false
    ∧ (update_field oneRowDB 1 ("liters") ("200")).1 = Except.ok true := by
  constructor
  · refine (update_field_rowcount oneRowDB 999 ("liters") ("200")
      ⟨FieldType.tStr, ("Capacity in liters"), false, false⟩ rfl rfl
      (fun h => FieldType.noConfusion h)).1 ?_
    rintro ⟨r, hr, hid⟩
    simp only [oneRowDB, List.mem_singleton] at hr
    subst hr
    exact absurd hid (by decide)
  · exact (update_field_rowcount oneRowDB 1 ("liters") ("200")
      ⟨FieldType.tStr, ("Capacity in liters"), false, false⟩ rfl rfl
      (fun h => FieldType.noConfusion h)).2
      ⟨⟨1, ("Classic"), 150, 120, 70, 45, 18, ("180"), ("2024-01-01 00:00:00")⟩,
       by simp [oneRowDB], rfl⟩

/-- C6 (amended): the save handler attempts the insert exactly when the
name is non-empty and all four measurements convert as real numbers —
the sign of the parsed values is not checked — and on any validation
failure no insert is attempted and the stored records are unchanged. -/
theorem save_bathtub_validation (s : DBState)
    (name top_length bottom_length width height liters now : String) :
    ((∃ i, (save_bathtub s name top_length bottom_length width height liters now).1
        = SaveResult.saved i)
      ↔ (name ≠ ("") ∧ (parseReal top_length).isSome = true
          ∧ (parseReal bottom_length).isSome = true
          ∧ (parseReal width).isSome = true
          ∧ (parseReal height).isSome = true))
    ∧ (¬ (name ≠ ("") ∧ (parseReal top_length).isSome = true
          ∧ (parseReal bottom_length).isSome = true
          ∧ (parseReal width).isSome = true
          ∧ (parseReal height).isSome = true) →
        (save_bathtub s name top_length bottom_length width height liters now).2
          = s) := by
  by_cases hn : name = ("")
  · constructor
    · simp [save_bathtub, hn]
    · intro _
      simp [save_bathtub, hn]
  · cases ht : parseReal top_length <;> cases hb : parseReal bottom_length <;>
      cases hw : parseReal width <;> cases hh : parseReal height <;>
      simp [save_bathtub, hn, ht, hb, hw, hh]

/-- Counterexample to C6 as stated: with name `X` and top length `-5` —
which converts to the negative real −5 — the save handler still inserts
a record, so an insert is attempted although not all measurements parse
as non-negative reals. -/
theorem save_bathtub_negative_counterexample :
    parseReal ("-5") = some (-5)
    ∧ ((-5 : ℚ) < 0)
    ∧ (save_bathtub emptyDB ("X") ("-5") ("1") ("1") ("1") ("")
        ("2024-01-01 00:00:00")).1 = SaveResult.saved 1
    ∧ ((save_bathtub emptyDB ("X") ("-5") ("1") ("1") ("1") ("")
        ("2024-01-01 00:00:00")).2).rows.length = 1 :=
  ⟨by decide, by norm_num, rfl, rfl⟩

/-- Auxiliary round-trip lemma: when all stored identifiers are below the
next `AUTOINCREMENT` value, searching by the identifier returned by an
insert yields exactly the inserted row. -/
theorem add_roundtrip_aux (s : DBState) (nm : String) (t b w h inc : ℝ)
    (lit now : String) (hinv : ∀ r ∈ s.rows, r.id < s.nextId) :
    search_entries_by_id (add_bathtub s nm t b w h inc lit now).2
        (add_bathtub s nm t b w h inc lit now).1
      = [⟨s.nextId, nm, t, b, w, h, inc, lit, now⟩] := by
  simp only [add_bathtub, search_entries_by_id]
  rw [List.filter_append]
  have h1 : s.rows.filter (fun r => r.id == s.nextId) = [] := by
    rw [List.filter_eq_nil_iff]
    intro r hr
    have := hinv r hr
    simp only [beq_iff_eq]
    omega
  rw [h1]
  simp

/-- C3: Inserting a record and fetching by the returned identifier yields
exactly one record, equal to the inserted values field by field; when the
inserted incline is `calculate_incline` of the inserted lengths and
height, the fetched incline equals that independently computed value. -/
theorem add_bathtub_roundtrip (s : DBState) (nm : String) (t b w h inc : ℝ)
    (lit now : String) (hinv : ∀ r ∈ s.rows, r.id < s.nextId) :
    search_entries_by_id (add_bathtub s nm t b w h inc lit now).2
        (add_bathtub s nm t b w h inc lit now).1
      = [⟨s.nextId, nm, t, b, w, h, inc, lit, now⟩]
    ∧ get_entry_by_id (add_bathtub s nm t b w h inc lit now).2
        (add_bathtub s nm t b w h inc lit now).1
      = some ⟨s.nextId, nm, t, b, w, h, inc, lit, now⟩
    ∧ (get_entry_by_id
          (add_bathtub s nm t b w h (calculate_incline t b h) lit now).2
          (add_bathtub s nm t b w h (calculate_incline t b h) lit now).1).map
        Bathtub.side_incline_degrees = some (calculate_incline t b h) := by
  refine ⟨add_roundtrip_aux s nm t b w h inc lit now hinv, ?_, ?_⟩
  · unfold get_entry_by_id
    rw [add_roundtrip_aux s nm t b w h inc lit now hinv]
    rfl
  · unfold get_entry_by_id
    rw [add_roundtrip_aux s nm t b w h (calculate_incline t b h) lit now hinv]
    rfl

/-- Witness for C3: the §8 scenario values inserted into the empty
database and fetched back. -/
theorem add_bathtub_roundtrip_witness :
    get_entry_by_id
        (add_bathtub emptyDB ("Classic") 150 120 70 45
          (calculate_incline 150 120 45) ("180") ("2024-01-01 00:00:00")).2
        (add_bathtub emptyDB ("Classic") 150 120 70 45
          (calculate_incline 150 120 45) ("180") ("2024-01-01 00:00:00")).1
      = some ⟨1, ("Classic"), 150, 120, 70, 45, calculate_incline 150 120 45,
             ("180"), ("2024-01-01 00:00:00")⟩ :=
  (add_bathtub_roundtrip emptyDB ("Classic") 150 120 70 45
    (calculate_incline 150 120 45) ("180") ("2024-01-01 00:00:00")
    (fun r hr => absurd hr (List.not_mem_nil r))).2.1

/-- A lone `%` wildcard matches every string. -/
theorem likeMatch_percent_nil (s : List Char) : likeMatch (['%']) s = true := by
  induction s with
  | nil => simp [likeMatch]
  | cons c s2 ih => simp [likeMatch, ih]

/-- A `%`-headed pattern absorbs an arbitrary prefix of the string. -/
theorem likeMatch_skip (p : List Char) (u s : List Char)
    (h : likeMatch p s = true) : likeMatch ('%' :: p) (u ++ s) = true := by
  induction u with
  | nil =>
    rw [likeMatch.eq_def]
    dsimp only
    simp only [List.nil_append]
    rw [h]
    simp
  | cons c u2 ih => simp [likeMatch, ih]

/-- A pattern whose characters agree with a string up to ASCII case,
followed by `%`, matches that string with anything appended. -/
theorem likeMatch_append_percent (t : List Char) :
    ∀ v w, t.map Char.toLower = v.map Char.toLower →
      likeMatch (t ++ (['%'])) (v ++ w) = true := by
  induction t with
  | nil =>
    intro v w hmap
    have hv : v = [] := by
      cases v with
      | nil => rfl
      | cons c cs => simp at hmap
    subst hv
    simpa using likeMatch_percent_nil w
  | cons p t2 ih =>
    intro v w hmap
    cases v with
    | nil => simp at hmap
    | cons c v2 =>
      simp only [List.map_cons, List.cons.injEq] at hmap
      obtain ⟨hpc, hrest⟩ := hmap
      by_cases hp : p = '%'
      · subst hp
        have hmain := likeMatch_skip (t2 ++ (['%'])) ([c]) (v2 ++ w)
          (ih v2 w hrest)
        simpa using hmain
      · by_cases hu : p = '_'
        · subst hu
          simp only [List.cons_append]
          rw [likeMatch.eq_def]
          dsimp only
          simp [ih v2 w hrest]
        · simp only [List.cons_append]
          rw [likeMatch.eq_def]
          dsimp only
          simp [hp, hu, hpc, ih v2 w hrest]

/-- C10: The name search is a case-insensitive partial match — every
stored record whose name contains the search text up to letter case is
returned. -/
theorem search_by_name_case_insensitive (s : DBState) (term : String) (r : Bathtub)
    (hr : r ∈ s.rows)
    (hsub : ∃ u w, u ++ term.data.map Char.toLower ++ w
        = r.name.data.map Char.toLower) :
    r ∈ search_entries_by_name s term := by
  unfold search_entries_by_name
  rw [List.mem_mergeSort, List.mem_filter]
  refine ⟨hr, ?_⟩
  obtain ⟨u, w, huw⟩ := hsub
  have hname : r.name.data.map Char.toLower
      = u ++ (term.data.map Char.toLower ++ w) := by
    rw [← huw, List.append_assoc]
  obtain ⟨l₁, l₂, hsplit, hm₁, hm₂⟩ := List.map_eq_append_iff.mp hname
  obtain ⟨m₁, m₂, hsplit2, hmm₁, hmm₂⟩ := List.map_eq_append_iff.mp hm₂
  rw [hsplit, hsplit2]
  unfold likePattern
  exact likeMatch_skip (term.data ++ (['%'])) l₁ (m₁ ++ m₂)
    (likeMatch_append_percent term.data m₁ m₂ hmm₁.symm)

/-- Witness for C10: after storing `Polypex`, searching for `polyp`
returns it. -/
theorem search_by_name_case_insensitive_witness :
    (⟨1, ("Polypex"), 150, 120, 70, 45, 18, ("180"),
      ("2024-01-01 00:00:00")⟩ : Bathtub)
      ∈ search_entries_by_name polypDB ("polyp") :=
  search_by_name_case_insensitive polypDB ("polyp")
    ⟨1, ("Polypex"), 150, 120, 70, 45, 18, ("180"), ("2024-01-01 00:00:00")⟩
    (List.mem_singleton_self _)
    ⟨[], [('e' : Char), ('x' : Char)], by decide⟩

/-- Witness for C4 at a concrete identifier and value. -/
theorem update_field_created_at_readOnly_witness :
    update_field oneRowDB 1 ("created_at") ("2030-01-01 00:00:00")
      = (Except.error UpdateError.readOnlyField, oneRowDB) :=
  update_field_created_at_readOnly oneRowDB 1 ("2030-01-01 00:00:00")

/-- Witness for the amended C6: a blank height blocks the insert and
leaves the database unchanged. -/
theorem save_bathtub_validation_witness :
    (save_bathtub emptyDB ("X") ("1") ("1") ("1") ("") ("")
      ("2024-01-01 00:00:00")).2 = emptyDB :=
  (save_bathtub_validation emptyDB ("X") ("1") ("1") ("1") ("") ("")
    ("2024-01-01 00:00:00")).2
    (by rintro ⟨-, -, -, -, h⟩; exact absurd h (by decide))

/-- Witness for the amended C8: a string that is no `FIELDS` key is
reported as unknown. -/
theorem update_field_unknownField_iff_witness :
    ("bogus") ∉ FIELDS.map Prod.fst :=
  (update_field_unknownField_iff emptyDB 1 ("bogus") ("x")).mp (by rfl)
